import Mathlib

/-!
Verification of the lidlock agent (src/main.rs) against its
natural-language specification.

The development shallowly embeds the program: machine integers become
`Nat` (with explicit widths where they matter), OS calls become oracle
parameters (the value the OS would have returned), and side effects
(log lines written, lock invocations, filesystem actions) become
explicit components of each function's result.
-/

namespace LidLock

/-- Action decided by the power-event policy (spec 4.5). -/
inductive Action where
  | lock
  | ignoreRemote
  | ignoreState
  deriving DecidableEq, Repr

/-- The pure decision policy, translated from the inner branch of
`LidLockWindow::window_proc` (main.rs lines 162-176): `state == 0` and a
non-remote session locks; `state == 0` in a remote session is ignored as
remote; any nonzero state is ignored regardless of session type.
In the source the session query is `GetSystemMetrics(SM_REMOTESESSION) == 0`
meaning non-remote; here `isRemote` is the boolean answer of that live query. -/
def decidePolicy (state : Nat) (isRemote : Bool) : Action :=
  if state = 0 then
    if isRemote = false then Action.lock else Action.ignoreRemote
  else Action.ignoreState

/-- Message id `WM_POWERBROADCAST` (0x0218). -/
def WM_POWERBROADCAST : Nat := 536

/-- Broadcast subtype `PBT_POWERSETTINGCHANGE` (0x8013). -/
def PBT_POWERSETTINGCHANGE : Nat := 32787

/-- The `POWERBROADCAST_SETTING` structure delivered through `lparam`:
a declared notification-class GUID (modelled as an opaque `Nat`), a declared
data length, and the raw bytes of the data region. -/
structure PowerBroadcastSetting where
  powerSetting : Nat
  dataLength : Nat
  data : List Nat
  deriving DecidableEq, Repr

/-- Decode of main.rs line 158: `*(setting.Data.as_ptr() as *const u32)`,
i.e. the first 4 bytes of the data region read as a little-endian unsigned
32-bit value (x86 byte order). Bytes are taken mod 256; absent bytes read 0. -/
def decodeState (data : List Nat) : Nat :=
  data.getD 0 0 % 256
    + data.getD 1 0 % 256 * 256
    + data.getD 2 0 % 256 * 65536
    + data.getD 3 0 % 256 * 16777216

/-- Observable outcome of one `window_proc` invocation: the LRESULT returned
to the platform, the number of `LockWorkStation` calls made, and the messages
passed to `logger.log`, in order. -/
structure ProcResult where
  result : Int
  lockCalls : Nat
  log : List String
  deriving DecidableEq, Repr

/-- `LidLockWindow::window_proc` (main.rs lines 142-182). Oracles:
`isRemote` is the live `GetSystemMetrics(SM_REMOTESESSION) != 0` answer,
`lockSucceeds` the boolean returned by `LockWorkStation`, and `defResult`
the value `DefWindowProcW` would return for this message. The callback
constructs its own logger; `log` records the messages it passes to it. -/
def window_proc (msg wparam : Nat) (setting : PowerBroadcastSetting)
    (isRemote lockSucceeds : Bool) (defResult : Int) : ProcResult :=
  if msg = WM_POWERBROADCAST then
    if wparam = PBT_POWERSETTINGCHANGE then
      let state := decodeState setting.data
      let log0 := ["Received WM_POWERBROADCAST", "Received PBT_POWERSETTINGCHANGE",
                   "Power setting state: " ++ toString state]
      match decidePolicy state isRemote with
      | Action.lock =>
          { result := 0, lockCalls := 1,
            log := log0 ++ ["Attempting to lock workstation",
                            if lockSucceeds then "Workstation locked successfully"
                            else "Failed to lock workstation"] }
      | Action.ignoreRemote =>
          { result := 0, lockCalls := 0,
            log := log0 ++ ["Ignoring, session is remote"] }
      | Action.ignoreState =>
          { result := 0, lockCalls := 0,
            log := log0 ++ ["Ignoring non-zero state"] }
    else
      { result := 0, lockCalls := 0, log := ["Received WM_POWERBROADCAST"] }
  else
    { result := defResult, lockCalls := 0, log := [] }

/-- A local date-time value as produced by the clock (`chrono::Local::now()`):
six calendar fields. -/
structure DateTime where
  year : Nat
  month : Nat
  day : Nat
  hour : Nat
  minute : Nat
  second : Nat
  deriving DecidableEq, Repr

/-- In-range calendar fields, the only values the clock produces. -/
def ValidDateTime (t : DateTime) : Prop :=
  t.year < 10000 ∧ 1 ≤ t.month ∧ t.month ≤ 12 ∧ 1 ≤ t.day ∧ t.day ≤ 31 ∧
    t.hour < 24 ∧ t.minute < 60 ∧ t.second < 60

/-- The decimal digit character of `n % 10`. -/
def digitChar (n : Nat) : Char := Char.ofNat (48 + n % 10)

/-- Two-digit zero-padded decimal rendering, as chrono's `%m`, `%d`, `%H`,
`%M`, `%S` produce for in-range fields. -/
def pad2 (n : Nat) : String := String.mk [digitChar (n / 10), digitChar n]

/-- Four-digit zero-padded decimal rendering, as chrono's `%Y` produces for
years below 10000. -/
def pad4 (n : Nat) : String :=
  String.mk [digitChar (n / 1000), digitChar (n / 100), digitChar (n / 10), digitChar n]

/-- The timestamp rendering of the source's format string
`"%Y-%m-%d %H:%M:%S"` (main.rs line 16), modelling chrono's formatter on
in-range local times. -/
def formatTimestamp (t : DateTime) : String :=
  pad4 t.year ++ String.mk [Char.ofNat 45] ++ pad2 t.month ++ String.mk [Char.ofNat 45]
    ++ pad2 t.day ++ String.mk [Char.ofNat 32] ++ pad2 t.hour ++ String.mk [Char.ofNat 58]
    ++ pad2 t.minute ++ String.mk [Char.ofNat 58] ++ pad2 t.second

/-- Shape check for the claimed timestamp format: 4 digits, dash, 2 digits,
dash, 2 digits, space, 2 digits, colon, 2 digits, colon, 2 digits. -/
def wellFormedTimestamp (s : String) : Bool :=
  match s.data with
  | [y1, y2, y3, y4, d1, mo1, mo2, d2, da1, da2, sp, h1, h2, c1, mi1, mi2, c2, se1, se2] =>
      y1.isDigit && y2.isDigit && y3.isDigit && y4.isDigit && d1 == Char.ofNat 45 &&
      mo1.isDigit && mo2.isDigit && d2 == Char.ofNat 45 && da1.isDigit && da2.isDigit &&
      sp == Char.ofNat 32 && h1.isDigit && h2.isDigit && c1 == Char.ofNat 58 &&
      mi1.isDigit && mi2.isDigit && c2 == Char.ofNat 58 && se1.isDigit && se2.isDigit
  | _ => false

/-- A filesystem action performed by the logger on its open file. -/
inductive FsAction where
  | write : String → FsAction
  | flush : FsAction
  deriving DecidableEq, Repr

/-- The `Logger` of main.rs lines 18-20: an optional exclusively-guarded open
file, its accumulated content modelled as the list of appended chunks. -/
structure Logger where
  file : Option (List String)
  deriving DecidableEq, Repr

/-- The full log line of main.rs line 41: bracketed timestamp, space,
message, newline. -/
def logLine (t : DateTime) (message : String) : String :=
  String.mk [Char.ofNat 91] ++ formatTimestamp t ++ String.mk [Char.ofNat 93, Char.ofNat 32]
    ++ message ++ String.mk [Char.ofNat 10]

/-- `Logger::new` (main.rs lines 23-34): `path.and_then(open .ok)` — the
filesystem oracle `fs` answers an open attempt with the opened file's current
content, or `none` when the open fails; any failure leaves the sink absent. -/
def Logger.new (path : Option String) (fs : String → Option (List String)) : Logger :=
  { file := path.bind fun p => fs p }

/-- `Logger::log` (main.rs lines 36-46): with a sink, append the formatted
line and flush; with no sink, do nothing. Returns the updated logger and the
filesystem actions performed. -/
def Logger.log (l : Logger) (t : DateTime) (message : String) : Logger × List FsAction :=
  match l.file with
  | none => (l, [])
  | some content =>
      ({ file := some (content ++ [logLine t message]) },
       [FsAction.write (logLine t message), FsAction.flush])

/-- A sequence of `Logger::log` calls, threaded left to right. -/
def Logger.logAll (l : Logger) (calls : List (DateTime × String)) : Logger × List FsAction :=
  match calls with
  | [] => (l, [])
  | c :: rest =>
      let step := Logger.log l c.1 c.2
      let next := Logger.logAll step.1 rest
      (next.1, step.2 ++ next.2)

/-- A `windows::core::Error`: an HRESULT code and a message string. -/
inductive WinError where
  | hresult : Nat → String → WinError
  deriving DecidableEq, Repr

/-- `windows::core::Error::from_win32()`: wraps the calling thread's
last-error code as an HRESULT (0x8007 facility-Win32 prefix) with no
message. -/
def WinError.fromWin32 (code : Nat) : WinError :=
  WinError.hresult (2147942400 + code % 65536) ("")

/-- The Win32 error code `ERROR_ALREADY_EXISTS` (183). -/
def ERROR_ALREADY_EXISTS : Nat := 183

/-- The distinct already-running error built at main.rs lines 199-202:
HRESULT 0x800700B7 with an explicit message. -/
def alreadyRunningError : WinError :=
  WinError.hresult 2147942583 ("Application instance already exists")

/-- Win32 semantics of `CreateMutexW` on a named mutex, as the oracle pair
(call result carrying the returned handle, last-error code after the call):
a failing call reports its error code; a successful call on a name that
already exists succeeds and sets last-error to `ERROR_ALREADY_EXISTS`. -/
def CreateMutexW (alreadyExists : Bool) (failure : Option Nat) (handle : Nat) :
    Except Nat Nat × Nat :=
  match failure with
  | some e => (Except.error e, e)
  | none => (Except.ok handle, if alreadyExists then ERROR_ALREADY_EXISTS else 0)

/-- The guard struct of main.rs lines 185-187: its only field is a freshly
constructed in-process `Mutex<()>`, which carries no data and is modelled as
`Unit`. The OS `HANDLE` returned by `CreateMutexW` is not a field. -/
structure SingletonHandle where
  _mutex : Unit
  deriving DecidableEq, Repr

/-- An OS-level action a destructor could perform on the mutex object. -/
inductive OsAction where
  | closeHandle : Nat → OsAction
  | releaseMutex : Nat → OsAction
  deriving DecidableEq, Repr

/-- `SingletonHandle::new` (main.rs lines 190-209): the `?` propagates a
`CreateMutexW` failure as a from-win32 error; on success, last-error equal to
`ERROR_ALREADY_EXISTS` yields the distinct already-running error; otherwise
the guard is built from a fresh `Mutex::new(())`, discarding the returned
handle (the local binding `_mutex` holding it is dropped unused). -/
def SingletonHandle.new (alreadyExists : Bool) (failure : Option Nat) (handle : Nat) :
    Except WinError SingletonHandle :=
  match CreateMutexW alreadyExists failure handle with
  | (Except.error e, _) => Except.error (WinError.fromWin32 e)
  | (Except.ok _, lastErr) =>
      if lastErr = ERROR_ALREADY_EXISTS then Except.error alreadyRunningError
      else Except.ok { _mutex := () }

/-- Rust drop glue of `SingletonHandle`: no `Drop` impl exists; dropping the
struct drops its `Mutex<()>` field, which performs no OS call, and the raw
`HANDLE` (a plain `Copy` value never stored in the struct) has no drop glue
either — so no OS-level release action is emitted. -/
def SingletonHandle.dropOsActions (g : SingletonHandle) : List OsAction := []

/-- The two power-setting notification classes subscribed to. -/
inductive PowerGuid where
  | monitorPowerOn
  | lidSwitchStateChange
  deriving DecidableEq, Repr

/-- Outcome of `LidLockWindow::register_notifications`: which registrations
were attempted, the returned result, and the log messages emitted. -/
structure RegOutcome where
  attempted : List PowerGuid
  result : Except WinError Unit
  log : List String
  deriving Repr

/-- `LidLockWindow::register_notifications` (main.rs lines 101-127), with the
success of each `RegisterPowerSettingNotification` call as an oracle and the
thread's last-error code on failure: the monitor-power registration is
attempted and checked first and a failure returns its error at once; then the
lid-switch registration is attempted and checked; only both succeeding
returns ok. -/
def register_notifications (regMonitorOk regLidOk : Bool) (lastError : Nat) : RegOutcome :=
  if regMonitorOk = false then
    { attempted := [PowerGuid.monitorPowerOn],
      result := Except.error (WinError.fromWin32 lastError),
      log := ["Registering power notifications",
              "Failed to register GUID_MONITOR_POWER_ON notification"] }
  else if regLidOk = false then
    { attempted := [PowerGuid.monitorPowerOn, PowerGuid.lidSwitchStateChange],
      result := Except.error (WinError.fromWin32 lastError),
      log := ["Registering power notifications",
              "Failed to register GUID_LIDSWITCH_STATE_CHANGE notification"] }
  else
    { attempted := [PowerGuid.monitorPowerOn, PowerGuid.lidSwitchStateChange],
      result := Except.ok (),
      log := ["Registering power notifications"] }

/-- The OS-call outcomes `main` and its callees observe, as oracles. -/
structure Env where
  mutexAlreadyExists : Bool
  mutexFailure : Option Nat
  mutexHandle : Nat
  registerClassOk : Bool
  createWindowOk : Bool
  regMonitorOk : Bool
  regLidOk : Bool
  lastError : Nat
  deriving DecidableEq, Repr

/-- `LidLockWindow::new` (main.rs lines 55-99) reduced to its fallible
skeleton: window-class registration, window creation, then
`register_notifications`; the first failure aborts construction. -/
def lidLockWindowNew (env : Env) : Except WinError Unit :=
  if env.registerClassOk = false then Except.error (WinError.fromWin32 env.lastError)
  else if env.createWindowOk = false then Except.error (WinError.fromWin32 env.lastError)
  else (register_notifications env.regMonitorOk env.regLidOk env.lastError).result

/-- What `main` did: whether the dispatch loop (`window.run()`) was entered,
and the process result. -/
structure MainOutcome where
  loopEntered : Bool
  result : Except WinError Unit
  deriving Repr

/-- `main` (main.rs lines 216-239) after logger setup: singleton acquisition,
window construction (including notification registration), then the dispatch
loop; each `?` propagates the error as the process result. -/
def mainFlow (env : Env) : MainOutcome :=
  match SingletonHandle.new env.mutexAlreadyExists env.mutexFailure env.mutexHandle with
  | Except.error e => { loopEntered := false, result := Except.error e }
  | Except.ok _ =>
      match lidLockWindowNew env with
      | Except.error e => { loopEntered := false, result := Except.error e }
      | Except.ok _ => { loopEntered := true, result := Except.ok () }

/-- The fixed log file name joined to the system temporary directory
(main.rs line 222), path join modelled as separator concatenation. -/
def tempLogPath (tempDir : String) : String := tempDir ++ ("/lidlock.log")

/-- Log-path resolution of `main` (main.rs lines 217-232): with `--debug`
anywhere in the argument list the path is the fixed temp-dir file; otherwise
`args.get(1).filter(!= debug).unwrap_or_default()`; the resulting string is
handed to `Logger::new` as `None` when empty. `args` includes the program
name at index 0, as `std::env::args` delivers it. -/
def resolveLogPath (args : List String) (tempDir : String) : Option String :=
  let log_path : String :=
    if args.any fun a => a = "--debug" then tempLogPath tempDir
    else
      match args.get? 1 with
      | some a => if a = "--debug" then ("") else a
      | none => ("")
  if log_path = ("") then none else some log_path

/-- Modelled from the claim's words, for comparison with `resolveLogPath`:
debug flag present resolves to the temp-dir file; otherwise a present first
positional argument that is not the debug flag is taken verbatim; otherwise
the sink is absent. -/
def claimedResolution (args : List String) (tempDir : String) : Option String :=
  if args.any fun a => a = "--debug" then some (tempLogPath tempDir)
  else
    match args.get? 1 with
    | some a => if a = "--debug" then none else some a
    | none => none

/-! ## Theorems -/

/-- C1: the policy decision on a decoded power-setting payload is exactly:
state 0 with a non-remote session locks, state 0 with a remote session is
IgnoreRemote, and every nonzero representable u32 state (including the
maximum, used in the witness) is IgnoreState regardless of session type. -/
theorem decidePolicy_spec (s : Nat) (b : Bool) (h1 : s ≠ 0) (h2 : s < 2 ^ 32) :
    decidePolicy 0 false = Action.lock ∧
    decidePolicy 0 true = Action.ignoreRemote ∧
    decidePolicy s b = Action.ignoreState := by
  refine ⟨rfl, rfl, ?_⟩
  simp [decidePolicy, h1]

/-- Witness for C1 at the maximum representable u32 state. -/
theorem decidePolicy_spec_witness :
    (4294967295 : Nat) ≠ 0 ∧ (4294967295 : Nat) < 2 ^ 32 ∧
    (decidePolicy 0 false = Action.lock ∧
     decidePolicy 0 true = Action.ignoreRemote ∧
     decidePolicy 4294967295 true = Action.ignoreState) :=
  ⟨by decide, by norm_num, decidePolicy_spec 4294967295 true (by decide) (by norm_num)⟩

/-- C2: a power-broadcast message with the power-setting-changed subtype,
decoded state 0, and a non-remote session invokes the session-lock primitive
exactly once, and the callback's log trace contains the attempting-to-lock
line immediately followed by the success-or-failure line of that invocation. -/
theorem lock_scenario (setting : PowerBroadcastSetting) (lockSucceeds : Bool) (defResult : Int)
    (h0 : decodeState setting.data = 0) :
    (window_proc WM_POWERBROADCAST PBT_POWERSETTINGCHANGE setting false lockSucceeds
        defResult).lockCalls = 1 ∧
    ∃ i,
      (window_proc WM_POWERBROADCAST PBT_POWERSETTINGCHANGE setting false lockSucceeds
          defResult).log.get? i = some ("Attempting to lock workstation") ∧
      ((window_proc WM_POWERBROADCAST PBT_POWERSETTINGCHANGE setting false lockSucceeds
          defResult).log.get? (i + 1) = some ("Workstation locked successfully") ∨
       (window_proc WM_POWERBROADCAST PBT_POWERSETTINGCHANGE setting false lockSucceeds
          defResult).log.get? (i + 1) = some ("Failed to lock workstation")) := by
  refine ⟨?_, 3, ?_, ?_⟩
  · simp [window_proc, h0, decidePolicy]
  · simp [window_proc, h0, decidePolicy]
  · cases lockSucceeds
    · right
      simp [window_proc, h0, decidePolicy]
    · left
      simp [window_proc, h0, decidePolicy]

/-- Witness for C2 on a concrete zero payload. -/
theorem lock_scenario_witness :
    decodeState [0, 0, 0, 0] = 0 ∧
    ((window_proc WM_POWERBROADCAST PBT_POWERSETTINGCHANGE ⟨0, 4, [0, 0, 0, 0]⟩ false true
        0).lockCalls = 1 ∧
     ∃ i,
       (window_proc WM_POWERBROADCAST PBT_POWERSETTINGCHANGE ⟨0, 4, [0, 0, 0, 0]⟩ false true
           0).log.get? i = some ("Attempting to lock workstation") ∧
       ((window_proc WM_POWERBROADCAST PBT_POWERSETTINGCHANGE ⟨0, 4, [0, 0, 0, 0]⟩ false true
           0).log.get? (i + 1) = some ("Workstation locked successfully") ∨
        (window_proc WM_POWERBROADCAST PBT_POWERSETTINGCHANGE ⟨0, 4, [0, 0, 0, 0]⟩ false true
           0).log.get? (i + 1) = some ("Failed to lock workstation"))) :=
  ⟨by decide, lock_scenario ⟨0, 4, [0, 0, 0, 0]⟩ true 0 (by decide)⟩

/-- C3: the callback's behaviour (returned result, lock invocations and log
trace) depends only on the message kind, the broadcast subtype, the first
4 bytes of the data region read as a u32, and the live remote-session query;
two delivered structures agreeing on those but differing in the declared
notification-class GUID (and in data length or trailing bytes) behave
identically. -/
theorem guid_noninterference (msg wparam : Nat) (s1 s2 : PowerBroadcastSetting)
    (isRemote lockSucceeds : Bool) (defResult : Int)
    (hdata : decodeState s1.data = decodeState s2.data) :
    window_proc msg wparam s1 isRemote lockSucceeds defResult
      = window_proc msg wparam s2 isRemote lockSucceeds defResult := by
  simp only [window_proc, hdata]

/-- Witness for C3: structures differing in GUID, declared length and
trailing bytes, agreeing on the first 4 data bytes. -/
theorem guid_noninterference_witness :
    decodeState ([0, 0, 0, 0] : List Nat) = decodeState ([0, 0, 0, 0, 9, 9] : List Nat) ∧
    window_proc 536 32787 ⟨1, 4, [0, 0, 0, 0]⟩ false true 0
      = window_proc 536 32787 ⟨2, 8, [0, 0, 0, 0, 9, 9]⟩ false true 0 :=
  ⟨by decide, guid_noninterference 536 32787 ⟨1, 4, [0, 0, 0, 0]⟩ ⟨2, 8, [0, 0, 0, 0, 9, 9]⟩
    false true 0 (by decide)⟩

/-- C9: every message other than a power broadcast returns the default
platform handler's result unchanged; every power-broadcast message returns
the fixed handled result 0, whichever inner branch runs. -/
theorem window_proc_dispatch (msg wparam : Nat) (setting : PowerBroadcastSetting)
    (isRemote lockSucceeds : Bool) (defResult : Int) :
    (msg ≠ WM_POWERBROADCAST →
      (window_proc msg wparam setting isRemote lockSucceeds defResult).result = defResult) ∧
    (msg = WM_POWERBROADCAST →
      (window_proc msg wparam setting isRemote lockSucceeds defResult).result = 0) := by
  constructor
  · intro h
    simp [window_proc, h]
  · intro h
    subst h
    by_cases hw : wparam = PBT_POWERSETTINGCHANGE
    · simp only [window_proc, if_pos rfl, if_pos hw]
      cases hd : decidePolicy (decodeState setting.data) isRemote <;> simp
    · simp [window_proc, hw]

/-- Witness for C9 at a non-power-broadcast and a power-broadcast message. -/
theorem window_proc_dispatch_witness :
    (window_proc 1 0 ⟨0, 0, []⟩ false false 7).result = 7 ∧
    (window_proc 536 0 ⟨0, 0, []⟩ false false 7).result = 0 :=
  ⟨(window_proc_dispatch 1 0 ⟨0, 0, []⟩ false false 7).1 (by decide),
   (window_proc_dispatch 536 0 ⟨0, 0, []⟩ false false 7).2 rfl⟩

/-- Helper: the digit character produced for any field value is a digit. -/
theorem digitChar_isDigit (n : Nat) : (digitChar n).isDigit = true := by
  unfold digitChar
  have h : n % 10 < 10 := Nat.mod_lt _ (by norm_num)
  generalize hk : n % 10 = k at h ⊢
  interval_cases k <;> decide

/-- Helper: every rendered timestamp has the claimed shape. -/
theorem formatTimestamp_wellFormed (t : DateTime) :
    wellFormedTimestamp (formatTimestamp t) = true := by
  have hdata : (formatTimestamp t).data =
      [digitChar (t.year / 1000), digitChar (t.year / 100), digitChar (t.year / 10),
       digitChar t.year, Char.ofNat 45, digitChar (t.month / 10), digitChar t.month,
       Char.ofNat 45, digitChar (t.day / 10), digitChar t.day, Char.ofNat 32,
       digitChar (t.hour / 10), digitChar t.hour, Char.ofNat 58,
       digitChar (t.minute / 10), digitChar t.minute, Char.ofNat 58,
       digitChar (t.second / 10), digitChar t.second] := rfl
  unfold wellFormedTimestamp
  rw [hdata]
  simp [digitChar_isDigit]

/-- Helper: a sequence of log calls on a present sink appends one line per
call, in order, with one write-then-flush pair per call. -/
theorem logAll_some (content : List String) (calls : List (DateTime × String)) :
    Logger.logAll { file := some content } calls
      = ({ file := some (content ++ calls.map fun c => logLine c.1 c.2) },
         calls.flatMap fun c => [FsAction.write (logLine c.1 c.2), FsAction.flush]) := by
  induction calls generalizing content with
  | nil => simp [Logger.logAll]
  | cons c rest ih =>
      simp [Logger.logAll, Logger.log, ih]

/-- Helper: every log line ends with the newline character. -/
theorem logLine_newline (t : DateTime) (m : String) :
    (logLine t m).data.getLast? = some (Char.ofNat 10) := by
  show ((((String.mk [Char.ofNat 91]).data ++ (formatTimestamp t).data)
      ++ [Char.ofNat 93, Char.ofNat 32] ++ m.data) ++ [Char.ofNat 10]).getLast?
    = some (Char.ofNat 10)
  exact List.getLast?_concat _

/-- C8: with a configured sink, a sequence of log calls appends exactly one
newline-terminated line per call, in call order, each line of the form
bracketed timestamp, space, message, newline, with a well-formed
year-month-day hour:minute:second timestamp, and each write is followed by a
flush. -/
theorem logger_appends_lines (content : List String) (calls : List (DateTime × String))
    (hvalid : ∀ c ∈ calls, ValidDateTime c.1) :
    (Logger.logAll { file := some content } calls).1.file
      = some (content ++ calls.map fun c => logLine c.1 c.2) ∧
    (calls.map fun c => logLine c.1 c.2).length = calls.length ∧
    (∀ c ∈ calls,
      logLine c.1 c.2
        = String.mk [Char.ofNat 91] ++ formatTimestamp c.1
            ++ String.mk [Char.ofNat 93, Char.ofNat 32] ++ c.2 ++ String.mk [Char.ofNat 10] ∧
      wellFormedTimestamp (formatTimestamp c.1) = true ∧
      (logLine c.1 c.2).data.getLast? = some (Char.ofNat 10)) ∧
    (Logger.logAll { file := some content } calls).2
      = calls.flatMap fun c => [FsAction.write (logLine c.1 c.2), FsAction.flush] := by
  refine ⟨?_, List.length_map _ _, ?_, ?_⟩
  · rw [logAll_some]
  · intro c hc
    exact ⟨rfl, formatTimestamp_wellFormed c.1, logLine_newline c.1 c.2⟩
  · rw [logAll_some]

/-- Witness for C8: one call on an empty file at a valid local time. -/
theorem logger_appends_lines_witness :
    (∀ c ∈ [((⟨2024, 1, 2, 3, 4, 5⟩ : DateTime), "Main started")], ValidDateTime c.1) ∧
    (Logger.logAll { file := some [] }
        [((⟨2024, 1, 2, 3, 4, 5⟩ : DateTime), "Main started")]).1.file
      = some ([] ++ [((⟨2024, 1, 2, 3, 4, 5⟩ : DateTime), "Main started")].map
          fun c => logLine c.1 c.2) :=
  ⟨by intro c hc
      rw [List.mem_singleton] at hc
      subst hc
      unfold ValidDateTime
      norm_num,
   (logger_appends_lines [] [((⟨2024, 1, 2, 3, 4, 5⟩ : DateTime), "Main started")]
      (by intro c hc
          rw [List.mem_singleton] at hc
          subst hc
          unfold ValidDateTime
          norm_num)).1⟩

/-- C10: logger construction never fails the caller — it is a total
function; when the open of the given path fails, the sink is absent, and a
log call on the resulting logger performs no filesystem action and returns
the logger unchanged. -/
theorem logger_new_never_fails (p : String) (fs : String → Option (List String))
    (t : DateTime) (m : String) (hfail : fs p = none) :
    (Logger.new (some p) fs).file = none ∧
    Logger.log (Logger.new (some p) fs) t m = (Logger.new (some p) fs, []) := by
  have h2 : Logger.new (some p) fs = { file := none } := by
    simp [Logger.new, hfail]
  rw [h2]
  exact ⟨rfl, rfl⟩

/-- Witness for C10 on a path whose open fails. -/
theorem logger_new_never_fails_witness :
    ((fun q : String => (none : Option (List String))) ("x")) = none ∧
    ((Logger.new (some ("x")) fun q : String => (none : Option (List String))).file = none ∧
     Logger.log (Logger.new (some ("x")) fun q : String => (none : Option (List String)))
         ⟨2024, 1, 2, 3, 4, 5⟩ ("m")
       = (Logger.new (some ("x")) fun q : String => (none : Option (List String)), [])) :=
  ⟨rfl, logger_new_never_fails ("x") (fun q : String => (none : Option (List String)))
    ⟨2024, 1, 2, 3, 4, 5⟩ ("m") rfl⟩

/-- C4: notification subscription is all-or-nothing — construction succeeds
exactly when both checked registrations succeed (and then both were
attempted); if either fails the construction returns an error, the dispatch
loop is never entered, and the process result is a startup error. -/
theorem registration_all_or_nothing (env : Env)
    (h : env.regMonitorOk = false ∨ env.regLidOk = false) :
    (register_notifications env.regMonitorOk env.regLidOk env.lastError).result
      = Except.error (WinError.fromWin32 env.lastError) ∧
    (mainFlow env).loopEntered = false ∧
    (∃ e, (mainFlow env).result = Except.error e) ∧
    (∀ r1 r2 n, (register_notifications r1 r2 n).result = Except.ok ()
        ↔ r1 = true ∧ r2 = true) ∧
    (∀ r2 n, (register_notifications true r2 n).attempted
        = [PowerGuid.monitorPowerOn, PowerGuid.lidSwitchStateChange]) := by
  have hfail : (register_notifications env.regMonitorOk env.regLidOk env.lastError).result
      = Except.error (WinError.fromWin32 env.lastError) := by
    rcases h with h | h
    · simp [register_notifications, h]
    · cases hm : env.regMonitorOk <;> simp [register_notifications, hm, h]
  have hw : lidLockWindowNew env = Except.error (WinError.fromWin32 env.lastError) := by
    unfold lidLockWindowNew
    cases hc : env.registerClassOk
    · simp
    · cases hcw : env.createWindowOk
      · simp
      · simp [hfail]
  refine ⟨hfail, ?_, ?_, ?_, ?_⟩
  · unfold mainFlow
    cases hs : SingletonHandle.new env.mutexAlreadyExists env.mutexFailure env.mutexHandle with
    | error e => rfl
    | ok g => rw [hw]
  · unfold mainFlow
    cases hs : SingletonHandle.new env.mutexAlreadyExists env.mutexFailure env.mutexHandle with
    | error e => exact ⟨e, rfl⟩
    | ok g =>
        rw [hw]
        exact ⟨WinError.fromWin32 env.lastError, rfl⟩
  · intro r1 r2 n
    cases r1 <;> cases r2 <;> simp [register_notifications]
  · intro r2 n
    cases r2 <;> simp [register_notifications]

/-- Witness for C4 with the second registration failing and every earlier
step succeeding. -/
theorem registration_all_or_nothing_witness :
    ((Env.mk false none 5 true true true false 7).regMonitorOk = false ∨
     (Env.mk false none 5 true true true false 7).regLidOk = false) ∧
    (mainFlow (Env.mk false none 5 true true true false 7)).loopEntered = false :=
  ⟨Or.inr rfl,
   (registration_all_or_nothing (Env.mk false none 5 true true true false 7)
      (Or.inr rfl)).2.1⟩

/-- C5: acquisition on a name that already exists yields the distinct
already-running error, which no generic from-win32 OS error equals (the two
differ in message for every error code), and never success; any other
creation failure is surfaced as the opaque from-win32 OS error. -/
theorem singleton_already_running (b : Bool) (e h1 h2 : Nat) :
    SingletonHandle.new true none h1 = Except.error alreadyRunningError ∧
    (∀ c, alreadyRunningError ≠ WinError.fromWin32 c) ∧
    SingletonHandle.new b (some e) h2 = Except.error (WinError.fromWin32 e) := by
  refine ⟨rfl, ?_, rfl⟩
  intro c hc
  simp only [alreadyRunningError, WinError.fromWin32, WinError.hresult.injEq] at hc
  exact absurd hc.2 (by decide)

/-- C6 counterexample: successful acquisitions that received distinct OS
handles return identical guard values — the guard cannot be holding the
handle — and dropping the guard emits no OS-level release action. -/
theorem singleton_guard_counterexample :
    SingletonHandle.new false none 5 = SingletonHandle.new false none 7 ∧
    (5 : Nat) ≠ 7 ∧
    SingletonHandle.dropOsActions { _mutex := () } = [] :=
  ⟨rfl, by decide, rfl⟩

/-- C6 amended: the guard returned by successful acquisition does not retain
the OS mutual-exclusion object's handle — the handle is discarded at
construction (never stored, never closed), every guard value is the same
unit-mutex wrapper, and dropping a guard performs no OS-level release; the
object is released only by OS cleanup at process exit. -/
theorem singleton_guard_amended (h1 h2 : Nat) :
    SingletonHandle.new false none h1 = SingletonHandle.new false none h2 ∧
    (∀ g : SingletonHandle, g = { _mutex := () }) ∧
    (∀ g : SingletonHandle, SingletonHandle.dropOsActions g = []) := by
  refine ⟨rfl, ?_, fun g => rfl⟩
  intro g
  cases g
  rfl

/-- C7 counterexample: with an empty string as the first positional argument
the source resolves to an absent sink, while the claim as stated takes the
empty string verbatim as the log path. -/
theorem log_path_counterexample :
    resolveLogPath ["lidlock", ""] ("/tmp") = none ∧
    claimedResolution ["lidlock", ""] ("/tmp") = some ("") ∧
    (some ("") : Option String) ≠ none := by
  refine ⟨by decide, by decide, by decide⟩

/-- C7 amended: with the debug flag present the log path is the fixed file in
the temporary directory; otherwise a present nonempty first positional
argument is taken verbatim as the log path; otherwise (no first positional
argument, or an empty one) the file sink is absent. -/
theorem log_path_amended (args : List String) (tempDir : String)
    (htmp : tempLogPath tempDir ≠ ("")) :
    ((args.any fun a => a = "--debug") = true →
      resolveLogPath args tempDir = some (tempLogPath tempDir)) ∧
    ((args.any fun a => a = "--debug") = false →
      ∀ a, args.get? 1 = some a → a ≠ ("") →
        resolveLogPath args tempDir = some a) ∧
    ((args.any fun a => a = "--debug") = false →
      (args.get? 1 = none ∨ args.get? 1 = some ("")) →
        resolveLogPath args tempDir = none) := by
  refine ⟨?_, ?_, ?_⟩
  · intro hd
    unfold resolveLogPath
    simp [hd, htmp]
  · intro hd a ha hne
    have hadbg : a ≠ "--debug" := by
      intro heq
      subst heq
      have hmem : ("--debug" : String) ∈ args := List.get?_mem ha
      have : args.any (fun a => a = "--debug") = true :=
        List.any_eq_true.mpr ⟨"--debug", hmem, by simp⟩
      rw [hd] at this
      exact Bool.noConfusion this
    unfold resolveLogPath
    rw [ha] at *
    simp [hd, ha, hadbg, hne]
  · intro hd hcase
    unfold resolveLogPath
    simp only [List.get?_eq_getElem?] at hcase
    rcases hcase with hc | hc <;> simp [hd, hc]

/-- Witness for C7 amended, exercising the debug branch. -/
theorem log_path_amended_witness :
    tempLogPath ("/tmp") ≠ ("") ∧
    resolveLogPath ["lidlock", "--debug"] ("/tmp") = some (tempLogPath ("/tmp")) :=
  ⟨by decide,
   (log_path_amended ["lidlock", "--debug"] ("/tmp") (by decide)).1 (by decide)⟩

end LidLock
